import Mathlib

/-!
Verification model of the 3D-model cross-search server (`server.js`).

The server aggregates search / popular-model results from six external
sites, normalizes them into one record shape, caches popular results and
proxied images, and serves everything over an HTTP API.  This file embeds
the request handlers and adapters as pure Lean functions.  External
effects (HTTP fetches, HTML parsing by cheerio, JSON parsing) are
modelled as explicit inputs: an adapter receives the already-decoded
upstream payload as an `Option`/`Except` value, where `none`/`error`
stands for a failed fetch, a non-success status, or an unparseable body.
-/

set_option linter.unusedVariables false

deriving instance DecidableEq for Except

namespace Srv

/-- The normalized cross-source record shape produced by every adapter
(`{title, creator, thumbnail, url, likes, downloads, source}`). -/
structure NormalizedRecord where
  title : String
  creator : String
  thumbnail : String
  url : String
  likes : Nat
  downloads : Nat
  source : String
deriving DecidableEq, Repr

/-! ## JavaScript value semantics helpers -/

/-- JS `a || d` where `a` is an optional string and `d` a string:
`undefined` and the empty string are falsy. -/
def jsOrS : Option String → String → String
  | some s, d => if s = "" then d else s
  | none, d => d

/-- JS `a || b` on two optional strings, keeping the result optional so
further `||` steps can be chained. -/
def jsOrS2 : Option String → Option String → Option String
  | some s, b => if s = "" then b else some s
  | none, b => b

/-- JS `a || b` on two optional numbers (`0` and `undefined` are falsy). -/
def jsOr2Nat : Option Nat → Option Nat → Option Nat
  | some n, b => if n = 0 then b else some n
  | none, b => b

/-- JS template interpolation of a possibly-undefined number:
`undefined` renders as the string `"undefined"`. -/
def renderOptNat : Option Nat → String
  | some n => toString n
  | none => "undefined"

/-- One decimal digit, or `none`. -/
def digitVal (c : Char) : Option Nat :=
  if '0' ≤ c ∧ c ≤ '9' then some (c.toNat - '0'.toNat) else none

/-- Longest decimal-digit prefix of a character list; `none` when it is
empty (`seen` records whether a digit has been consumed). -/
def parseDigits : List Char → Nat → Bool → Option Nat
  | [], acc, seen => if seen then some acc else none
  | c :: rest, acc, seen =>
    match digitVal c with
    | some d => parseDigits rest (acc * 10 + d) true
    | none => if seen then some acc else none

/-- Models the JS builtin `parseInt` on decimal string inputs: skip
leading whitespace, read an optional sign and then the longest digit
prefix; `none` models `NaN`. -/
def jsParseInt (s : String) : Option Int :=
  let cs := s.toList.dropWhile (fun c => c = ' ' ∨ c = '\t' ∨ c = '\n' ∨ c = '\r')
  match cs with
  | '-' :: rest => (parseDigits rest 0 false).map (fun n => -(n : Int))
  | '+' :: rest => (parseDigits rest 0 false).map (fun n => (n : Int))
  | _ => (parseDigits cs 0 false).map (fun n => (n : Int))

/-- JS `v || d` on a parsed number: `NaN` (`none`) and `0` are falsy. -/
def jsNumOr (v : Option Int) (d : Int) : Int :=
  match v with
  | none => d
  | some 0 => d
  | some n => n

/-- `Math.min(parseInt(limit) || 10, 20)` — the effective limit computed
identically at lines 845, 914 and 928 of `server.js`.  An absent query
parameter destructures to the number `10`, and `parseInt(10) = 10`. -/
def searchEffectiveLimit : Option String → Int
  | none => min (10 : Int) 20
  | some s => min (jsNumOr (jsParseInt s) 10) 20

/-- `Math.max(parseInt(page) || 1, 1)` (lines 846 and 915). -/
def searchEffectivePage : Option String → Int
  | none => max (1 : Int) 1
  | some s => max (jsNumOr (jsParseInt s) 1) 1

/-- The clamp function the specification describes for `limit`:
`clamp(parsed_limit_or_default, 1, 20)`.  Modelled from the spec for
comparison with the code's `searchEffectiveLimit`. -/
def specClamp (v lo hi : Int) : Int := max lo (min v hi)

/-- Whether `pat` occurs as a contiguous sublist of the second list. -/
def infixOfAux (pat : List Char) : List Char → Bool
  | [] => pat.isPrefixOf ([] : List Char)
  | c :: rest => pat.isPrefixOf (c :: rest) || infixOfAux pat rest

/-- JS `String.prototype.includes(pat)` for a non-empty pattern:
substring containment. -/
def strIncludes (s pat : String) : Bool := infixOfAux pat.toList s.toList

/-- JS `String.prototype.startsWith`. -/
def strStartsWith (s pre : String) : Bool := pre.toList.isPrefixOf s.toList

/-- JS `String.prototype.endsWith`. -/
def strEndsWith (s suf : String) : Bool := suf.toList.isSuffixOf s.toList

/-- Lexicographic (code-unit) comparison of two character lists. -/
def charListLt : List Char → List Char → Bool
  | [], [] => false
  | [], _ :: _ => true
  | _ :: _, [] => false
  | a :: as, b :: bs => if a < b then true else if b < a then false else charListLt as bs

/-- Lexicographic string comparison, as used by the default JS
`Array.prototype.sort()` comparator. -/
def strLt (a b : String) : Bool := charListLt a.toList b.toList

/-- JS `s.split(',')` (splitting on a single comma), character by
character; `''.split(',')` is `['']`. -/
def splitCommaAux : List Char → List Char → List String
  | [], acc => [String.mk acc.reverse]
  | c :: rest, acc =>
    if c = ',' then String.mk acc.reverse :: splitCommaAux rest []
    else splitCommaAux rest (c :: acc)

def jsSplitComma (s : String) : List String := splitCommaAux s.toList []

/-- JS `arr.join(',')`. -/
def joinComma : List String → String
  | [] => ""
  | [s] => s
  | s :: rest => s ++ "," ++ joinComma rest

/-- JS `arr.slice(0, e)`: a negative end counts from the end of the
array, a large end is capped at the length. -/
def jsSliceTo (l : List α) (e : Int) : List α :=
  if e < 0 then l.take (l.length - e.natAbs) else l.take e.toNat

/-! ## JS object / `Map` model

`response.results[site] = r` and `imageCache.set(k, v)` both write a
string-keyed mutable map.  We model such maps as association lists in
insertion order; `assocSet` is assignment (replace in place if the key is
present — keys are unique in lists built by `assocSet` — and append
otherwise) and `lookupA` is key access. -/

def lookupA : List (String × α) → String → Option α
  | [], _ => none
  | p :: rest, k => if p.1 == k then some p.2 else lookupA rest k

def assocSet : List (String × α) → String → α → List (String × α)
  | [], k, v => [(k, v)]
  | p :: rest, k, v => if p.1 == k then (k, v) :: rest else p :: assocSet rest k v

/-- Build an object by assigning a list of key/value pairs in order
(`results.forEach(r => { response[r.site] = r.results; })`). -/
def buildObj (pairs : List (String × α)) : List (String × α) :=
  pairs.foldl (fun acc p => assocSet acc p.1 p.2) []

theorem lookupA_assocSet (m : List (String × α)) (k : String) (v : α) (q : String) :
    lookupA (assocSet m k v) q = if q = k then some v else lookupA m q := by
  induction m with
  | nil =>
    simp only [assocSet, lookupA]
    by_cases h : q = k
    · subst h; simp
    · have : (k == q) = false := by simpa [beq_eq_false_iff_ne] using fun hc => h hc.symm
      simp [this, h, lookupA]
  | cons p rest ih =>
    simp only [assocSet]
    by_cases hp : p.1 = k
    · simp only [hp, beq_self_eq_true, if_true]
      by_cases hq : q = k
      · subst hq; simp [lookupA]
      · have h1 : (k == q) = false := by
          simpa [beq_eq_false_iff_ne] using fun hc => hq hc.symm
        have h2 : (p.1 == q) = false := by
          rw [hp]; exact h1
        simp [lookupA, h1, h2, hq]
    · have hpk : (p.1 == k) = false := by simpa [beq_eq_false_iff_ne] using hp
      simp only [hpk, if_false]
      by_cases hq : q = k
      · subst hq
        have h2 : (p.1 == q) = false := hpk
        simp [lookupA, h2, ih]
      · by_cases hpq : p.1 = q
        · simp [lookupA, hpq, hq]
        · have h2 : (p.1 == q) = false := by simpa [beq_eq_false_iff_ne] using hpq
          simp [lookupA, h2, ih, hq]

/-- The keys of an association list. -/
def keysOf (m : List (String × α)) : List String := m.map Prod.fst

theorem keysOf_assocSet (m : List (String × α)) (k : String) (v : α) :
    keysOf (assocSet m k v) = if k ∈ keysOf m then keysOf m else keysOf m ++ [k] := by
  induction m with
  | nil => simp [assocSet, keysOf]
  | cons p rest ih =>
    simp only [assocSet]
    by_cases hp : p.1 = k
    · simp [hp, keysOf]
    · have hpk : (p.1 == k) = false := by simpa [beq_eq_false_iff_ne] using hp
      have hne : ¬ k = p.1 := fun hc => hp hc.symm
      rw [if_neg (by simp [hpk])]
      simp only [keysOf, List.map_cons]
      simp only [keysOf] at ih
      rw [ih]
      by_cases hm : k ∈ rest.map Prod.fst
      · simp [hm, hne]
      · simp [hm, hne]

theorem keysOf_assocSet_nodup (m : List (String × α)) (k : String) (v : α)
    (h : (keysOf m).Nodup) : (keysOf (assocSet m k v)).Nodup := by
  rw [keysOf_assocSet]
  by_cases hm : k ∈ keysOf m
  · simpa [hm]
  · simp only [hm, if_false]
    rw [List.nodup_append]
    refine ⟨h, List.nodup_singleton k, ?_⟩
    intro a ha hb
    simp only [List.mem_singleton] at hb
    subst hb
    exact hm ha

theorem lookupA_eq_find? (m : List (String × α)) (k : String) :
    lookupA m k = (m.find? (fun p => p.1 == k)).map Prod.snd := by
  induction m with
  | nil => rfl
  | cons p rest ih =>
    simp only [lookupA, List.find?_cons]
    by_cases hp : p.1 = k
    · simp [hp]
    · have hpk : (p.1 == k) = false := by simpa [beq_eq_false_iff_ne] using hp
      simp [hpk, ih]

theorem lookupA_foldl_assocSet (pairs acc : List (String × α)) (k : String) :
    lookupA (pairs.foldl (fun a p => assocSet a p.1 p.2) acc) k =
      match pairs.reverse.find? (fun p => p.1 == k) with
      | some p => some p.2
      | none => lookupA acc k := by
  induction pairs generalizing acc with
  | nil => simp
  | cons p rest ih =>
    simp only [List.foldl_cons, List.reverse_cons, List.find?_append]
    rw [ih]
    cases hfind : rest.reverse.find? (fun q => q.1 == k) with
    | some q => simp [Option.or_some]
    | none =>
      simp only [Option.none_or]
      rw [lookupA_assocSet]
      by_cases hp : p.1 = k
      · have hptrue : (p.1 == k) = true := by simp [hp]
        simp [List.find?_cons, hptrue, hp]
      · have hpfalse : (p.1 == k) = false := by simpa [beq_eq_false_iff_ne] using hp
        have hq : ¬ k = p.1 := fun hc => hp hc.symm
        simp [List.find?_cons, hpfalse, hq]

theorem lookupA_buildObj (pairs : List (String × α)) (k : String) :
    lookupA (buildObj pairs) k =
      match pairs.reverse.find? (fun p => p.1 == k) with
      | some p => some p.2
      | none => none := by
  have h := lookupA_foldl_assocSet pairs [] k
  simpa [buildObj, lookupA] using h

theorem find?_reverse_of_keys_nodup (l : List (String × α)) (k : String)
    (h : (keysOf l).Nodup) :
    l.reverse.find? (fun p => p.1 == k) = l.find? (fun p => p.1 == k) := by
  induction l with
  | nil => rfl
  | cons p rest ih =>
    simp only [List.reverse_cons, List.find?_append]
    simp only [keysOf, List.map_cons, List.nodup_cons] at h
    obtain ⟨hnotin, hnd⟩ := h
    rw [ih hnd]
    by_cases hp : p.1 = k
    · have hnone : rest.find? (fun q => q.1 == k) = none := by
        rw [List.find?_eq_none]
        intro x hx
        simp only [beq_iff_eq]
        intro hxk
        apply hnotin
        rw [hp, ← hxk]
        exact List.mem_map_of_mem Prod.fst hx
      have hptrue : (p.1 == k) = true := by simp [hp]
      rw [hnone]
      simp [List.find?_cons, hptrue]
    · have hpfalse : (p.1 == k) = false := by simpa [beq_eq_false_iff_ne] using hp
      simp only [List.find?_cons, hpfalse]
      cases rest.find? (fun q : String × α => q.1 == k) <;> rfl

theorem lookupA_buildObj_of_nodup (pairs : List (String × α)) (k : String)
    (h : (keysOf pairs).Nodup) : lookupA (buildObj pairs) k = lookupA pairs k := by
  rw [lookupA_buildObj, find?_reverse_of_keys_nodup _ _ h, lookupA_eq_find?]
  cases pairs.find? (fun p => p.1 == k) <;> rfl

theorem keysOf_foldl_assocSet_nodup (pairs : List (String × α)) :
    ∀ (acc : List (String × α)), (keysOf acc).Nodup →
      (keysOf (pairs.foldl (fun a p => assocSet a p.1 p.2) acc)).Nodup := by
  induction pairs with
  | nil => intro acc h; simpa using h
  | cons p rest ih =>
    intro acc h
    simp only [List.foldl_cons]
    exact ih _ (keysOf_assocSet_nodup _ _ _ h)

theorem keysOf_buildObj_nodup (pairs : List (String × α)) :
    (keysOf (buildObj pairs)).Nodup :=
  keysOf_foldl_assocSet_nodup pairs [] (by simp [keysOf])

theorem lookupA_filter_of_lookupA (m : List (String × α)) (f : String × α → Bool)
    (k : String) (v : α) (h : lookupA m k = some v) (hk : f (k, v) = true) :
    lookupA (m.filter f) k = some v := by
  induction m with
  | nil => simp [lookupA] at h
  | cons p rest ih =>
    by_cases hp : p.1 = k
    · have hbeq : (p.1 == k) = true := by simp [hp]
      simp only [lookupA, hbeq, if_true] at h
      have hpv : p = (k, v) := by
        cases p with
        | mk a b =>
          simp only at hp
          simp only [Option.some.injEq] at h
          rw [hp, h]
      rw [List.filter_cons, hpv]
      simp only [hk, if_true, lookupA, beq_self_eq_true, if_true]
    · have hbeq : (p.1 == k) = false := by simpa [beq_eq_false_iff_ne] using hp
      simp only [lookupA, hbeq, Bool.false_eq_true, if_false] at h
      rw [List.filter_cons]
      by_cases hf : f p = true
      · simp only [hf, if_true, lookupA, hbeq, Bool.false_eq_true, if_false]
        exact ih h
      · simp only [hf, if_false]
        exact ih h

/-! ## JS `Array.prototype.sort()` on strings

`enabledSites.sort()` sorts in place, lexicographically by code unit.
Insertion sort produces the same sorted list. -/

def insertSorted (s : String) : List String → List String
  | [] => [s]
  | t :: ts => if strLt t s then t :: insertSorted s ts else s :: t :: ts

def jsSortStrings (l : List String) : List String := l.foldr insertSorted []

theorem insertSorted_perm (s : String) (l : List String) :
    (insertSorted s l).Perm (s :: l) := by
  induction l with
  | nil => exact List.Perm.refl _
  | cons t ts ih =>
    simp only [insertSorted]
    by_cases h : strLt t s = true
    · rw [if_pos h]
      exact (List.Perm.cons t ih).trans (List.Perm.swap s t ts)
    · rw [if_neg h]

theorem jsSortStrings_perm (l : List String) : (jsSortStrings l).Perm l := by
  induction l with
  | nil => exact List.Perm.refl _
  | cons t ts ih =>
    simp only [jsSortStrings, List.foldr_cons]
    exact (insertSorted_perm t _).trans (List.Perm.cons t ih)

theorem count_jsSortStrings (l : List String) (s : String) :
    (jsSortStrings l).count s = l.count s :=
  (jsSortStrings_perm l).count_eq s

/-! ## Source adapters

Each adapter is embedded as a function of its upstream payload(s).
`none` for an `Option`-typed payload models a failed fetch, a non-success
status code, an unparseable body, or a thrown exception — every such path
in the source returns an empty array or falls through to the next
strategy exactly as modelled here. -/

/-- An item of the Printables GraphQL payload
(`data.data.searchPrints2.items[i]`). -/
structure PrintablesItem where
  id : Nat
  name : Option String
  slug : Option String
  likesCount : Option Nat
  downloadCount : Option Nat
  userPublicUsername : Option String
  imageFilePath : Option String
deriving DecidableEq, Repr

def mkPrintablesRecord (item : PrintablesItem) : NormalizedRecord where
  title := jsOrS item.name "Untitled"
  creator := jsOrS item.userPublicUsername "Unknown"
  thumbnail :=
    match item.imageFilePath with
    | some p => if p = "" then "" else "https://media.printables.com/" ++ p
    | none => ""
  url := "https://www.printables.com/model/" ++ toString item.id ++ "-" ++ jsOrS item.slug ""
  likes := (jsOr2Nat item.likesCount none).getD 0
  downloads := (jsOr2Nat item.downloadCount none).getD 0
  source := "printables"

/-- `searchPrintables(query, limit, page)` (lines 56-122): on a
successful response every item is mapped — the result is NOT truncated
to `limit`; on a non-ok response or error it returns `[]`. -/
def searchPrintables (query : String) (limit page : Int)
    (resp : Option (List PrintablesItem)) : List NormalizedRecord :=
  match resp with
  | some items => items.map mkPrintablesRecord
  | none => []

/-- An item of the primary Thangs search payload. -/
structure ThangsItem where
  name : Option String
  title : Option String
  ownerUsernameNested : Option String
  ownerUsername : Option String
  creator : Option String
  thumbnailUrl : Option String
  previewUrl : Option String
  thumbnail : Option String
  publicUrl : Option String
  url : Option String
  id : Option Nat
  modelId : Option Nat
  likes : Option Nat
  likeCount : Option Nat
  downloads : Option Nat
  downloadCount : Option Nat
deriving DecidableEq, Repr

def mkThangsRecord (item : ThangsItem) : NormalizedRecord where
  title := jsOrS (jsOrS2 item.name item.title) "Untitled"
  creator := jsOrS (jsOrS2 (jsOrS2 item.ownerUsernameNested item.ownerUsername) item.creator) "Unknown"
  thumbnail := jsOrS (jsOrS2 (jsOrS2 item.thumbnailUrl item.previewUrl) item.thumbnail) ""
  url := jsOrS (jsOrS2 item.publicUrl item.url)
    ("https://thangs.com/model/" ++ renderOptNat (jsOr2Nat item.id item.modelId))
  likes := (jsOr2Nat item.likes item.likeCount).getD 0
  downloads := (jsOr2Nat item.downloads item.downloadCount).getD 0
  source := "thangs"

/-- An item of the alternate Thangs endpoint payload. -/
structure ThangsAltItem where
  name : Option String
  title : Option String
  ownerUsername : Option String
  ownerUsernameNested : Option String
  thumbnailUrl : Option String
  publicUrl : Option String
  id : Option Nat
  likeCount : Option Nat
  downloadCount : Option Nat
deriving DecidableEq, Repr

def mkThangsAltRecord (item : ThangsAltItem) : NormalizedRecord where
  title := jsOrS (jsOrS2 item.name item.title) "Untitled"
  creator := jsOrS (jsOrS2 item.ownerUsername item.ownerUsernameNested) "Unknown"
  thumbnail := jsOrS item.thumbnailUrl ""
  url := jsOrS item.publicUrl ("https://thangs.com/model/" ++ renderOptNat item.id)
  likes := item.likeCount.getD 0
  downloads := item.downloadCount.getD 0
  source := "thangs"

/-- `searchThangs(query, limit, page)` (lines 125-183): primary endpoint
items are sliced to `limit`; when the primary response is not ok or not
an array, the alternate endpoint is tried, also sliced to `limit`. -/
def searchThangs (query : String) (limit page : Int)
    (primary : Option (List ThangsItem)) (alt : Option (List ThangsAltItem)) :
    List NormalizedRecord :=
  match primary with
  | some items => (jsSliceTo items limit).map mkThangsRecord
  | none =>
    match alt with
    | some items => (jsSliceTo items limit).map mkThangsAltRecord
    | none => []

/-- A `thing` of the Thingiverse API / `__NEXT_DATA__` payload. -/
structure ThingiverseThing where
  id : Option Nat
  name : Option String
  creatorName : Option String
  creatorUsername : Option String
  previewImage : Option String
  thumbnail : Option String
  likeCount : Option Nat
  likes : Option Nat
  downloadCount : Option Nat
  downloads : Option Nat
  collectCount : Option Nat
deriving DecidableEq, Repr

/-- Mapping used in the official-API branch (includes the
`collect_count` downloads fallback). -/
def mkThingiverseApiRecord (t : ThingiverseThing) : NormalizedRecord where
  title := jsOrS t.name "Untitled"
  creator := jsOrS (jsOrS2 t.creatorName t.creatorUsername) "Unknown"
  thumbnail := jsOrS (jsOrS2 t.previewImage t.thumbnail) ""
  url := "https://www.thingiverse.com/thing:" ++ renderOptNat t.id
  likes := (jsOr2Nat t.likeCount t.likes).getD 0
  downloads := (jsOr2Nat (jsOr2Nat t.downloadCount t.downloads) t.collectCount).getD 0
  source := "thingiverse"

/-- Mapping used in the `__NEXT_DATA__` branch (no `collect_count`). -/
def mkThingiverseNextRecord (t : ThingiverseThing) : NormalizedRecord where
  title := jsOrS t.name "Untitled"
  creator := jsOrS (jsOrS2 t.creatorName t.creatorUsername) "Unknown"
  thumbnail := jsOrS (jsOrS2 t.previewImage t.thumbnail) ""
  url := "https://www.thingiverse.com/thing:" ++ renderOptNat t.id
  likes := (jsOr2Nat t.likeCount t.likes).getD 0
  downloads := (jsOr2Nat t.downloadCount t.downloads).getD 0
  source := "thingiverse"

/-- A candidate element matched by the Thingiverse cheerio selectors. -/
structure ThingiverseCard where
  href : Option String
  titleText : String
  linkTitle : Option String
  imgSrc : Option String
  imgDataSrc : Option String
deriving DecidableEq, Repr

/-- The cheerio `.each` loop of `searchThingiverse`: stops once `limit`
results are collected, pushes one record per element whose link href
contains `/thing:`. -/
def thingiverseScrape (limit : Int) : List ThingiverseCard → List NormalizedRecord →
    List NormalizedRecord
  | [], acc => acc
  | c :: rest, acc =>
    if limit ≤ (acc.length : Int) then acc
    else
      match c.href with
      | some href =>
        if href ≠ "" ∧ strIncludes href "/thing:" then
          thingiverseScrape limit rest (acc ++ [{
            title := jsOrS (jsOrS2 (some c.titleText) c.linkTitle) "Untitled"
            creator := "Unknown"
            thumbnail := jsOrS (jsOrS2 c.imgSrc c.imgDataSrc) ""
            url := if strStartsWith href "http" then href else "https://www.thingiverse.com" ++ href
            likes := 0
            downloads := 0
            source := "thingiverse" }])
        else thingiverseScrape limit rest acc
      | none => thingiverseScrape limit rest acc

/-- The scraping fallback of `searchThingiverse` (lines 226-289):
`__NEXT_DATA__` parsing (slice to `limit`, only taken when non-empty),
then cheerio card scraping bounded by `limit`. -/
def thingiverseScrapeFallback (limit : Int) (nextData : Option (List ThingiverseThing))
    (cards : List ThingiverseCard) : List NormalizedRecord :=
  match nextData with
  | some things =>
    if things ≠ [] then (jsSliceTo things limit).map mkThingiverseNextRecord
    else thingiverseScrape limit cards []
  | none => thingiverseScrape limit cards []

/-- `searchThingiverse(query, limit, page)` (lines 186-294): official API
when a key is configured (slice to `limit`, only taken when non-empty),
else the scraping fallback. -/
def searchThingiverse (query : String) (limit page : Int) (hasApiKey : Bool)
    (apiHits : Option (List ThingiverseThing)) (nextData : Option (List ThingiverseThing))
    (cards : List ThingiverseCard) : List NormalizedRecord :=
  match (if hasApiKey then apiHits else none) with
  | some hits =>
    if hits ≠ [] then (jsSliceTo hits limit).map mkThingiverseApiRecord
    else thingiverseScrapeFallback limit nextData cards
  | none => thingiverseScrapeFallback limit nextData cards

/-- An item of the MyMiniFactory API payload. -/
structure MmfItem where
  name : Option String
  title : Option String
  designerName : Option String
  designerUsername : Option String
  userName : Option String
  imgThumbUrl : Option String
  imgUrl : Option String
  thumbnail : Option String
  url : Option String
  slug : Option String
  id : Option Nat
  likes : Option Nat
  downloads : Option Nat
  views : Option Nat
deriving DecidableEq, Repr

def mkMmfRecord (item : MmfItem) : NormalizedRecord where
  title := jsOrS (jsOrS2 item.name item.title) "Untitled"
  creator := jsOrS (jsOrS2 (jsOrS2 item.designerName item.designerUsername) item.userName) "Unknown"
  thumbnail := jsOrS (jsOrS2 (jsOrS2 item.imgThumbUrl item.imgUrl) item.thumbnail) ""
  url := jsOrS item.url ("https://www.myminifactory.com/object/" ++
    (match item.slug with
     | some s => if s = "" then renderOptNat item.id else s
     | none => renderOptNat item.id))
  likes := item.likes.getD 0
  downloads := (jsOr2Nat item.downloads item.views).getD 0
  source := "myminifactory"

/-- A candidate anchor element matched by the MyMiniFactory cheerio
selector, together with its closest card's extracted fields. -/
structure MmfCard where
  href : Option String
  cardTitle : String
  elTitle : Option String
  imgSrc : Option String
  imgDataSrc : Option String
deriving DecidableEq, Repr

/-- The cheerio `.each` loop of `searchMyMiniFactory`: bounded by
`limit`, pushes when an href and a title exist and no collected record's
url already contains the href. -/
def mmfScrape (limit : Int) : List MmfCard → List NormalizedRecord → List NormalizedRecord
  | [], acc => acc
  | c :: rest, acc =>
    if limit ≤ (acc.length : Int) then acc
    else
      match c.href with
      | none => mmfScrape limit rest acc
      | some href =>
        let title := jsOrS (jsOrS2 (some c.cardTitle) c.elTitle) ""
        if href ≠ "" ∧ title ≠ "" ∧ ¬ acc.any (fun r => strIncludes r.url href) then
          mmfScrape limit rest (acc ++ [{
            title := title
            creator := "Unknown"
            thumbnail := jsOrS (jsOrS2 c.imgSrc c.imgDataSrc) ""
            url := if strStartsWith href "http" then href else "https://www.myminifactory.com" ++ href
            likes := 0
            downloads := 0
            source := "myminifactory" }])
        else mmfScrape limit rest acc

/-- `searchMyMiniFactory(query, limit, page)` (lines 297-367): API items
sliced to `limit` when the response parses to a non-empty array,
otherwise cheerio scraping bounded by `limit`. -/
def searchMyMiniFactory (query : String) (limit page : Int)
    (apiItems : Option (List MmfItem)) (cards : List MmfCard) : List NormalizedRecord :=
  match apiItems with
  | some items =>
    if items ≠ [] then (jsSliceTo items limit).map mkMmfRecord
    else mmfScrape limit cards []
  | none => mmfScrape limit cards []

/-- An item of the Creality Cloud payload (`data.result.list[i]`). -/
structure CrealityItem where
  groupName : Option String
  nickName : Option String
  coverUrl : Option String
  id : Option Nat
  likeCount : Option Nat
  downloadCount : Option Nat
deriving DecidableEq, Repr

def mkCrealityRecord (item : CrealityItem) : NormalizedRecord where
  title := jsOrS item.groupName "Untitled"
  creator := jsOrS item.nickName "Unknown"
  thumbnail := jsOrS item.coverUrl ""
  url := "https://www.crealitycloud.com/model-detail/" ++ renderOptNat item.id
  likes := item.likeCount.getD 0
  downloads := item.downloadCount.getD 0
  source := "crealitycloud"

/-- `searchCrealityCloud(query, limit, page)` (lines 370-429): on
`code === 0` with a result list, every list item is mapped — the result
is NOT truncated to `limit`; otherwise `[]`. -/
def searchCrealityCloud (query : String) (limit page : Int)
    (resp : Option (List CrealityItem)) : List NormalizedRecord :=
  match resp with
  | some list => list.map mkCrealityRecord
  | none => []

/-- A model-card image element matched by the YouMagine cheerio
selector (`img.object-cover[alt]`). -/
structure YmImage where
  alt : String
  src : String
  hasWFull : Bool
  href : Option String
deriving DecidableEq, Repr

/-- The cheerio `.each` loop shared by `searchYouMagine` and
`fetchPopularYouMagine`: bounded by `limit`, skips non-model images,
dedups on the link href via a `seen` set. -/
def ymScrape (limit : Int) : List YmImage → List String → List NormalizedRecord →
    List NormalizedRecord
  | [], _, acc => acc
  | img :: rest, seen, acc =>
    if limit ≤ (acc.length : Int) then acc
    else if ¬ img.hasWFull ∨ img.src = "" ∨ img.alt = "YouMagine" then
      ymScrape limit rest seen acc
    else
      match img.href with
      | none => ymScrape limit rest seen acc
      | some href =>
        if href ≠ "" ∧ ¬ strEndsWith href "/designs/" ∧ ¬ seen.contains href then
          ymScrape limit rest (seen ++ [href]) (acc ++ [{
            title := jsOrS (some img.alt) "Untitled"
            creator := "Unknown"
            thumbnail := if strStartsWith img.src "http" then img.src else "https://youmagine.com" ++ img.src
            url := if strStartsWith href "http" then href else "https://youmagine.com" ++ href
            likes := 0
            downloads := 0
            source := "youmagine" }])
        else ymScrape limit rest seen acc

/-- `searchYouMagine(query, limit, page)` (lines 432-480). -/
def searchYouMagine (query : String) (limit page : Int)
    (imgs : Option (List YmImage)) : List NormalizedRecord :=
  match imgs with
  | some l => ymScrape limit l [] []
  | none => []

/-! ### Curated fallback data (`fallbackPopularModels`, lines 486-523) -/

def fallbackPopularThingiverse : List NormalizedRecord := [
  ⟨"Flexi Rex (T-Rex)", "DrLex", "https://cdn.thingiverse.com/renders/9e/f5/92/56/d5/5e04faf6b1ebee0735ffb82771ca9051_preview_featured.jpg", "https://www.thingiverse.com/thing:2738211", 45000, 890000, "thingiverse"⟩,
  ⟨"Low Poly Pikachu", "FLOWALISTIK", "https://cdn.thingiverse.com/renders/60/5d/6d/72/c4/pikachu_low_poly_pokemon_flowalistik_preview_featured.jpg", "https://www.thingiverse.com/thing:376601", 22000, 410000, "thingiverse"⟩,
  ⟨"Phone Stand", "WilliamAAdams", "https://cdn.thingiverse.com/renders/37/83/e7/42/ac/841e55362ab601e2ed4c2de08074e8b2_preview_featured.jpg", "https://www.thingiverse.com/thing:2194278", 32000, 650000, "thingiverse"⟩,
  ⟨"Modular Hex Drawers", "O3D", "https://cdn.thingiverse.com/renders/8f/98/c7/7a/98/60acf4823a53e317955cdddbf12ddd12_preview_featured.jpg", "https://www.thingiverse.com/thing:2425429", 20000, 380000, "thingiverse"⟩,
  ⟨"Articulated Slug", "Fizz Creations", "https://cdn.thingiverse.com/assets/d6/82/8f/11/12/featured_preview_CoverPhoto.jpg", "https://www.thingiverse.com/thing:4727448", 15000, 280000, "thingiverse"⟩,
  ⟨"Raspberry Pi 4 Case", "Malolo", "https://cdn.thingiverse.com/assets/21/f7/ca/64/68/featured_preview_Logo_MM3.jpg", "https://www.thingiverse.com/thing:3723561", 18000, 350000, "thingiverse"⟩,
  ⟨"Cable Management Clips", "Filar3D", "https://cdn.thingiverse.com/assets/f3/ba/2e/d3/d0/featured_preview_IMG_20170804_104455.jpg", "https://www.thingiverse.com/thing:2466594", 25000, 480000, "thingiverse"⟩,
  ⟨"3DBenchy", "CreativeTools", "", "https://www.thingiverse.com/thing:763622", 17000, 340000, "thingiverse"⟩,
  ⟨"Articulated Dragon", "McGybeer", "", "https://www.thingiverse.com/thing:4817953", 28000, 520000, "thingiverse"⟩,
  ⟨"Flexi Shark", "McGybeer", "", "https://www.thingiverse.com/thing:4846879", 12000, 220000, "thingiverse"⟩]

def fallbackPopularThangs : List NormalizedRecord := [
  ⟨"Articulated Axolotl", "Printed Obsession", "", "https://thangs.com/designer/PrintedObsession/3d-model/Articulated%20Axolotl-799498", 31000, 620000, "thangs"⟩,
  ⟨"Baby Groot Planter", "Fotis Mint", "", "https://thangs.com/designer/Fotis%20Mint/3d-model/Baby%20Groot%20Flower%20Pot-38826", 26000, 510000, "thangs"⟩,
  ⟨"Flexi Octopus", "McGybeer", "", "https://thangs.com/designer/McGybeer/3d-model/Cute%20Flexi%20Print-in-Place%20Octopus-798703", 23000, 440000, "thangs"⟩,
  ⟨"Mandalorian Helmet", "Galactic Armory", "", "https://thangs.com/designer/Galactic%20Armory/3d-model/The%20Mandalorian%20Helmet-45873", 20000, 390000, "thangs"⟩,
  ⟨"Articulated Dragon", "McGybeer", "", "https://thangs.com/designer/McGybeer/3d-model/Articulated%20Dragon-798707", 18000, 350000, "thangs"⟩,
  ⟨"Headphone Stand", "Various", "", "https://thangs.com/search/headphone%20stand", 16000, 310000, "thangs"⟩,
  ⟨"Dice Tower", "Various", "", "https://thangs.com/search/dice%20tower", 15000, 290000, "thangs"⟩,
  ⟨"Cable Organizer", "Various", "", "https://thangs.com/search/cable%20organizer", 14000, 270000, "thangs"⟩,
  ⟨"Phone Stand", "Various", "", "https://thangs.com/search/phone%20stand", 13000, 250000, "thangs"⟩,
  ⟨"Geometric Vase", "Various", "", "https://thangs.com/search/geometric%20vase", 12000, 230000, "thangs"⟩]

def fallbackPopularMmf : List NormalizedRecord := [
  ⟨"The Dragon", "Fotis Mint", "", "https://www.myminifactory.com/object/3d-print-the-dragon-100769", 42000, 810000, "myminifactory"⟩,
  ⟨"Cthulhu", "Fotis Mint", "", "https://www.myminifactory.com/object/3d-print-cthulhu-30203", 35000, 680000, "myminifactory"⟩,
  ⟨"Dice Guardian", "mz4250", "", "https://www.myminifactory.com/object/3d-print-dice-guardian-12345", 28000, 540000, "myminifactory"⟩,
  ⟨"Mind Flayer", "mz4250", "", "https://www.myminifactory.com/object/3d-print-mind-flayer-32001", 25000, 480000, "myminifactory"⟩,
  ⟨"Articulated Knight", "Printed Obsession", "", "https://www.myminifactory.com/object/3d-print-articulated-knight-56789", 22000, 420000, "myminifactory"⟩,
  ⟨"Baby Yoda", "Fotis Mint", "", "https://www.myminifactory.com/object/3d-print-baby-yoda-117365", 20000, 380000, "myminifactory"⟩,
  ⟨"Greek Statue Collection", "Scan The World", "", "https://www.myminifactory.com/users/Scan%20The%20World", 18000, 350000, "myminifactory"⟩,
  ⟨"Terrain Set", "Printable Scenery", "", "https://www.myminifactory.com/users/Printable%20Scenery", 16000, 310000, "myminifactory"⟩,
  ⟨"Beholder", "mz4250", "", "https://www.myminifactory.com/object/3d-print-beholder-28947", 15000, 290000, "myminifactory"⟩,
  ⟨"Dragon Bust", "Fotis Mint", "", "https://www.myminifactory.com/object/3d-print-dragon-bust-100770", 14000, 270000, "myminifactory"⟩]

/-! ### Fetch-popular adapters (lines 525-752) -/

/-- `fetchPopularThingiverse(limit)`: official API slice when a key is
configured and the call returns a non-empty array, else the curated
fallback list sliced to `limit`. -/
def fetchPopularThingiverse (limit : Int) (hasApiKey : Bool)
    (apiHits : Option (List ThingiverseThing)) : List NormalizedRecord :=
  match (if hasApiKey then apiHits else none) with
  | some hits =>
    if hits ≠ [] then (jsSliceTo hits limit).map mkThingiverseApiRecord
    else jsSliceTo fallbackPopularThingiverse limit
  | none => jsSliceTo fallbackPopularThingiverse limit

/-- `fetchPopularPrintables(limit)` (lines 566-628): a non-empty GraphQL
item list is mapped without truncation; an ok-but-empty or non-ok
response falls back to `searchPrintables('gridfinity', limit)`; a thrown
error returns `[]`. -/
def fetchPopularPrintables (limit : Int)
    (popResp : Except Unit (List PrintablesItem))
    (searchResp : Option (List PrintablesItem)) : List NormalizedRecord :=
  match popResp with
  | .error _ => []
  | .ok items =>
    if items ≠ [] then items.map mkPrintablesRecord
    else searchPrintables "gridfinity" limit 1 searchResp

/-- `fetchPopularThangs(limit)`: always the curated fallback list sliced
to `limit` (upstream is Cloudflare protected). -/
def fetchPopularThangs (limit : Int) : List NormalizedRecord :=
  jsSliceTo fallbackPopularThangs limit

/-- `fetchPopularMyMiniFactory(limit)`: always the curated fallback list
sliced to `limit`. -/
def fetchPopularMyMiniFactory (limit : Int) : List NormalizedRecord :=
  jsSliceTo fallbackPopularMmf limit

/-- `fetchPopularCrealityCloud(limit)` (lines 642-701): like the search
variant, maps every list item without truncation. -/
def fetchPopularCrealityCloud (limit : Int)
    (resp : Option (List CrealityItem)) : List NormalizedRecord :=
  match resp with
  | some list => list.map mkCrealityRecord
  | none => []

/-- `fetchPopularYouMagine(limit)` (lines 703-752). -/
def fetchPopularYouMagine (limit : Int) (imgs : Option (List YmImage)) :
    List NormalizedRecord :=
  match imgs with
  | some l => ymScrape limit l [] []
  | none => []

/-! ## Aggregation routes (`/api/search`, `/api/search/:site`, `/api/popular`)

Adapter invocations are abstracted by an outcome function
`o : Nat → Int → Except Unit (List NormalizedRecord)` giving, for the
`i`-th launched promise and the effective limit it was passed, either the
adapter's resolved record list or a thrown exception (`.error`), which
the route-level `catch` converts to `{ site, results: [] }`.
`Promise.all` preserves the order of the promise array, so the settled
list is indexed by position. -/

/-- The own keys of `searchFunctions` / `fetchFunctions`, which is also
the default `sites` list of all three aggregate routes. -/
def recognizedSites : List String :=
  ["thingiverse", "printables", "thangs", "youmagine", "myminifactory", "crealitycloud"]

/-- The members a JS bracket lookup on an object literal also finds on
the prototype chain: every standard `Object.prototype` property (Node
includes the Annex B accessors), all of which evaluate truthy (they are
functions, and `__proto__` yields `Object.prototype` itself). -/
def objectPrototypeKeys : List String :=
  ["constructor", "hasOwnProperty", "isPrototypeOf", "propertyIsEnumerable",
   "toLocaleString", "toString", "valueOf", "__defineGetter__", "__defineSetter__",
   "__lookupGetter__", "__lookupSetter__", "__proto__"]

/-- `searchFunctions[site]` / `fetchFunctions[site]` is truthy
(lines 861, 909, 950): the site is one of the six own keys, or it names
a truthy member inherited from `Object.prototype`. -/
def isRecognized (s : String) : Bool :=
  recognizedSites.contains s || objectPrototypeKeys.contains s

/-- JS falsiness of an optional string parameter (`!q`,
`siteParam ? ... : ...`). -/
def jsFalsyOptStr : Option String → Bool
  | none => true
  | some s => s == ""

/-- `siteParam ? siteParam.split(',') : [...all six]`. -/
def enabledSitesOf : Option String → List String
  | none => recognizedSites
  | some s => if s = "" then recognizedSites else jsSplitComma s

/-- The per-site promises: `enabledSites.filter(site => fns[site])`. -/
def selectedSites (siteParam : Option String) : List String :=
  (enabledSitesOf siteParam).filter isRecognized

/-- The route-level `try/catch` around one adapter invocation: a thrown
exception settles as an empty result list. -/
def settleResult : Except Unit (List NormalizedRecord) → List NormalizedRecord
  | .ok r => r
  | .error _ => []

/-- The settled `{site, results}` array produced by `Promise.all`, one
entry per launched promise, in promise order. -/
def settleFrom (o : Nat → Int → Except Unit (List NormalizedRecord)) (lim : Int) :
    Nat → List String → List (String × List NormalizedRecord)
  | _, [] => []
  | i, s :: rest => (s, settleResult (o i lim)) :: settleFrom o lim (i + 1) rest

/-- `results.forEach(r => { response[r.site] = r.results; })`. -/
def aggregateResults (sel : List String) (lim : Int)
    (o : Nat → Int → Except Unit (List NormalizedRecord)) :
    List (String × List NormalizedRecord) :=
  buildObj (settleFrom o lim 0 sel)

inductive SearchResponse where
  | badRequest (error : String)
  | ok (page : Int) (limit : Int) (results : List (String × List NormalizedRecord))
deriving DecidableEq

def SearchResponse.statusCode : SearchResponse → Nat
  | .badRequest _ => 400
  | .ok _ _ _ => 200

def SearchResponse.resultsOf : SearchResponse → List (String × List NormalizedRecord)
  | .badRequest _ => []
  | .ok _ _ r => r

/-- `GET /api/search` (lines 837-889). -/
def apiSearch (q siteParam limitParam pageParam : Option String)
    (o : Nat → Int → Except Unit (List NormalizedRecord)) : SearchResponse :=
  if jsFalsyOptStr q then .badRequest "Query parameter \"q\" is required"
  else
    .ok (searchEffectivePage pageParam) (searchEffectiveLimit limitParam)
      (aggregateResults (selectedSites siteParam) (searchEffectiveLimit limitParam) o)

inductive SiteSearchResponse where
  | badRequest (error : String)
  | invalidSite (error : String) (validSites : List String)
  | ok (site : String) (page : Int) (results : List NormalizedRecord)
deriving DecidableEq

/-- `GET /api/search/:site` (lines 892-922); `invoke` is the selected
adapter applied to `(searchLimit, searchPage)`. -/
def apiSearchSite (site : String) (q limitParam pageParam : Option String)
    (invoke : Int → Int → List NormalizedRecord) : SiteSearchResponse :=
  if jsFalsyOptStr q then .badRequest "Query parameter \"q\" is required"
  else if isRecognized site = false then .invalidSite "Invalid site" recognizedSites
  else
    .ok site (searchEffectivePage pageParam)
      (invoke (searchEffectiveLimit limitParam) (searchEffectivePage pageParam))

/-! ## Popular-results cache (`popularCache`, lines 48-53 and 925-973)

The cache object holds one `data` map of responses keyed by
`sortedSites.join(',') + '-' + limit`, and a SINGLE `timestamp` field
shared by all keys, overwritten on every store. -/

def POPULAR_TTL : Nat := 5 * 60 * 1000

structure PopularCache where
  data : Option (List (String × List (String × List NormalizedRecord)))
  timestamp : Nat
deriving DecidableEq

/-- `popularCache.data?.[cacheKey] && Date.now() - popularCache.timestamp
< popularCache.TTL` (line 932). -/
def popularCacheLookup (c : PopularCache) (key : String) (now : Nat) :
    Option (List (String × List NormalizedRecord)) :=
  match c.data with
  | none => none
  | some m =>
    match lookupA m key with
    | none => none
    | some v => if now - c.timestamp < POPULAR_TTL then some v else none

/-- Lines 968-970: `if (!popularCache.data) popularCache.data = {};`,
`popularCache.data[cacheKey] = response;`,
`popularCache.timestamp = Date.now();`. -/
def popularStore (c : PopularCache) (key : String)
    (resp : List (String × List NormalizedRecord)) (now : Nat) : PopularCache :=
  ⟨some (assocSet (c.data.getD []) key resp), now⟩

/-- `` `${enabledSites.sort().join(',')}-${searchLimit}` `` (line 931).
`sort()` mutates `enabledSites`, so the fetch loop below it iterates the
sorted array. -/
def popularKey (siteParam limitParam : Option String) : String :=
  joinComma (jsSortStrings (enabledSitesOf siteParam)) ++ "-" ++
    toString (searchEffectiveLimit limitParam)

def popularSelected (siteParam : Option String) : List String :=
  (jsSortStrings (enabledSitesOf siteParam)).filter isRecognized

structure PopularStep where
  response : List (String × List NormalizedRecord)
  cache : PopularCache
  fetchedLive : Bool
deriving DecidableEq

/-- `GET /api/popular` (lines 925-973) as a transition on the cache
state; `fetchedLive` records whether the adapters were invoked. -/
def apiPopular (c : PopularCache) (siteParam limitParam : Option String)
    (o : Nat → Int → Except Unit (List NormalizedRecord)) (now : Nat) : PopularStep :=
  match popularCacheLookup c (popularKey siteParam limitParam) now with
  | some r => ⟨r, c, false⟩
  | none =>
    ⟨aggregateResults (popularSelected siteParam) (searchEffectiveLimit limitParam) o,
     popularStore c (popularKey siteParam limitParam)
       (aggregateResults (popularSelected siteParam) (searchEffectiveLimit limitParam) o) now,
     true⟩

/-! ## Image proxy and cache (`/api/image`, lines 756-834)

The `url` input is the decoded query parameter (decoding by the JS
builtin `decodeURIComponent` is part of parameter transport, external to
this model); the upstream fetch result is an explicit input. -/

def IMAGE_CACHE_TTL : Nat := 30 * 60 * 1000

structure ImageEntry where
  buffer : List Nat
  contentType : String
  timestamp : Nat
deriving DecidableEq

abbrev ImageCache := List (String × ImageEntry)

structure UpstreamImage where
  ok : Bool
  status : Nat
  contentType : Option String
  body : List Nat
deriving DecidableEq

inductive ImageResponse where
  | badRequest (error : String)
  | upstreamError (status : Nat) (error : String)
  | serverError (error : String)
  | okImage (contentType : String) (body : List Nat)
deriving DecidableEq

/-- Whether a response is a 400 client error. -/
def ImageResponse.is400 : ImageResponse → Bool
  | .badRequest _ => true
  | _ => false

/-- The only URL validation the route performs (line 770). -/
def imageUrlAccepted (u : String) : Bool :=
  strStartsWith u "http://" || strStartsWith u "https://"

/-- The WHATWG notion the spec describes — a well-formed absolute
HTTP(S) URL.  Modelled from the spec: an `http://` or `https://` scheme
followed by a non-empty authority (host) part. -/
def specWellFormedHttpUrl (s : String) : Bool :=
  (strStartsWith s "http://" &&
    !((s.toList.drop 7).takeWhile (fun c => !(c == '/') && !(c == '?') && !(c == '#')) == [])) ||
  (strStartsWith s "https://" &&
    !((s.toList.drop 8).takeWhile (fun c => !(c == '/') && !(c == '?') && !(c == '#')) == []))

/-- The eviction sweep (lines 818-825): delete every entry whose age
strictly exceeds the TTL. -/
def evictStale (m : ImageCache) (now : Nat) : ImageCache :=
  m.filter (fun p => ! decide (IMAGE_CACHE_TTL < now - p.2.timestamp))

/-- `imageCache.set(...)` followed by the size-triggered sweep
(lines 815-825). -/
def imageCacheInsert (cache : ImageCache) (k : String) (e : ImageEntry) (now : Nat) :
    ImageCache :=
  if (assocSet cache k e).length > 100 then evictStale (assocSet cache k e) now
  else assocSet cache k e

/-- The fetch-and-cache path (lines 794-829).  The `Bool` component
records that the route invoked `fetch` for this request. -/
def imageFetchPath (cache : ImageCache) (u : String)
    (upstream : Except Unit UpstreamImage) (now : Nat) :
    ImageResponse × ImageCache × Bool :=
  match upstream with
  | .error _ => (.serverError "Failed to fetch image", cache, true)
  | .ok resp =>
    if resp.ok = false then
      (.upstreamError resp.status "Failed to fetch image", cache, true)
    else
      (.okImage (jsOrS resp.contentType "image/jpeg") resp.body,
       imageCacheInsert cache u ⟨resp.body, jsOrS resp.contentType "image/jpeg", now⟩ now,
       true)

/-- `GET /api/image` (lines 760-834). -/
def apiImage (cache : ImageCache) (url : Option String)
    (upstream : Except Unit UpstreamImage) (now : Nat) :
    ImageResponse × ImageCache × Bool :=
  match url with
  | none => (.badRequest "URL parameter required", cache, false)
  | some u =>
    if u = "" then (.badRequest "URL parameter required", cache, false)
    else if imageUrlAccepted u = false then (.badRequest "Invalid URL", cache, false)
    else
      match lookupA cache u with
      | some e =>
        if now - e.timestamp < IMAGE_CACHE_TTL then
          (.okImage e.contentType e.buffer, cache, false)
        else imageFetchPath cache u upstream now
      | none => imageFetchPath cache u upstream now

/-! ## Aggregation lemmas -/

theorem keysOf_settleFrom (o : Nat → Int → Except Unit (List NormalizedRecord)) (lim : Int) :
    ∀ (sel : List String) (i : Nat), keysOf (settleFrom o lim i sel) = sel := by
  intro sel
  induction sel with
  | nil => intro i; rfl
  | cons s rest ih =>
    intro i
    simp only [settleFrom, keysOf, List.map_cons]
    rw [show (List.map Prod.fst (settleFrom o lim (i + 1) rest)) = keysOf (settleFrom o lim (i + 1) rest) from rfl, ih]

theorem settleFrom_append (o : Nat → Int → Except Unit (List NormalizedRecord)) (lim : Int) :
    ∀ (l1 l2 : List String) (i : Nat),
      settleFrom o lim i (l1 ++ l2) =
        settleFrom o lim i l1 ++ settleFrom o lim (i + l1.length) l2 := by
  intro l1
  induction l1 with
  | nil => intro l2 i; simp [settleFrom]
  | cons s rest ih =>
    intro l2 i
    simp only [List.cons_append, settleFrom, List.length_cons, List.append_eq]
    rw [ih, show i + 1 + rest.length = i + (rest.length + 1) from by omega]

theorem lookupA_settleFrom_pointwise
    (o : Nat → Int → Except Unit (List NormalizedRecord)) (lim : Int)
    (f : String) (failCase : Except Unit (List NormalizedRecord))
    (hfail : settleResult failCase = [])
    (good : String → List NormalizedRecord) :
    ∀ (sel : List String) (i : Nat),
      (∀ j, (hj : j < sel.length) →
        o (i + j) lim = if sel[j] = f then failCase else .ok (good sel[j])) →
      ∀ s ∈ sel, lookupA (settleFrom o lim i sel) s =
        some (if s = f then [] else good s) := by
  intro sel
  induction sel with
  | nil => intro i ho s hs; cases hs
  | cons s0 rest ih =>
    intro i ho s hs
    have ho0 := ho 0 (by simp)
    simp only [List.getElem_cons_zero] at ho0
    simp only [settleFrom, lookupA]
    by_cases hseq : s0 = s
    · subst hseq
      simp only [beq_self_eq_true, if_true]
      rw [show i + 0 = i from rfl] at ho0
      by_cases hf : s0 = f
      · rw [ho0, if_pos hf, hfail, if_pos hf]
      · rw [ho0, if_neg hf]
        simp [settleResult, hf]
    · have hbeq : (s0 == s) = false := by simpa [beq_eq_false_iff_ne] using hseq
      simp only [hbeq, Bool.false_eq_true, if_false]
      have hs' : s ∈ rest := by
        cases hs with
        | head => exact absurd rfl hseq
        | tail _ h => exact h
      refine ih (i + 1) ?_ s hs'
      intro j hj
      have := ho (j + 1) (by simpa using Nat.succ_lt_succ hj)
      simpa [Nat.add_assoc, Nat.add_comm 1 j] using this

theorem lookupA_aggregate_last
    (o : Nat → Int → Except Unit (List NormalizedRecord)) (lim : Int)
    (sel : List String) (s : String) (l1 l2 : List String)
    (hsel : sel = l1 ++ s :: l2) (hlast : s ∉ l2) :
    lookupA (buildObj (settleFrom o lim 0 sel)) s =
      some (settleResult (o l1.length lim)) := by
  subst hsel
  rw [lookupA_buildObj]
  rw [settleFrom_append]
  simp only [settleFrom, Nat.zero_add]
  rw [List.reverse_append, List.reverse_cons, List.find?_append, List.find?_append]
  have hnone : (settleFrom o lim (l1.length + 1) l2).reverse.find?
      (fun p => p.1 == s) = none := by
    rw [List.find?_eq_none]
    intro x hx
    rw [List.mem_reverse] at hx
    have hkey : x.1 ∈ keysOf (settleFrom o lim (l1.length + 1) l2) :=
      List.mem_map_of_mem Prod.fst hx
    rw [keysOf_settleFrom] at hkey
    simp only [beq_iff_eq]
    intro hxs
    exact hlast (hxs ▸ hkey)
  rw [hnone, Option.none_or]
  simp

/-! ## Claim theorems -/

/-- C1: for a `/api/search` request with a valid query, if exactly one
selected adapter fails — by throwing (`failCase = .error ()`) or by the
adapter-internal catch that yields an empty array (`failCase = .ok []`,
as e.g. `searchPrintables` produces on any network error, final
conjunct) — while every other invocation resolves with its record list,
the response has status 200, the failing site's entry is `[]`, and every
other requested recognized site's entry is exactly its adapter's full
result array. -/
theorem c1_one_failing_adapter_leaves_siblings_intact
    (q : String) (hq : q ≠ "")
    (siteParam limitParam pageParam : Option String)
    (hnd : (selectedSites siteParam).Nodup)
    (f : String) (failCase : Except Unit (List NormalizedRecord))
    (hfail : failCase = .error () ∨ failCase = .ok [])
    (good : String → List NormalizedRecord)
    (o : Nat → Int → Except Unit (List NormalizedRecord))
    (ho : ∀ j, (hj : j < (selectedSites siteParam).length) →
      o j (searchEffectiveLimit limitParam) =
        if (selectedSites siteParam)[j] = f then failCase
        else .ok (good (selectedSites siteParam)[j])) :
    (apiSearch (some q) siteParam limitParam pageParam o).statusCode = 200 ∧
    (∀ s ∈ selectedSites siteParam,
      lookupA (apiSearch (some q) siteParam limitParam pageParam o).resultsOf s =
        some (if s = f then [] else good s)) ∧
    (∀ lim page, searchPrintables q lim page none = []) := by
  have hfalsy : jsFalsyOptStr (some q) = false := by
    simp [jsFalsyOptStr, hq]
  have happ : apiSearch (some q) siteParam limitParam pageParam o =
      .ok (searchEffectivePage pageParam) (searchEffectiveLimit limitParam)
        (aggregateResults (selectedSites siteParam) (searchEffectiveLimit limitParam) o) := by
    rw [apiSearch, hfalsy]
    simp
  refine ⟨by rw [happ]; rfl, ?_, fun lim page => rfl⟩
  intro s hs
  rw [happ]
  show lookupA (aggregateResults (selectedSites siteParam)
    (searchEffectiveLimit limitParam) o) s = _
  rw [aggregateResults]
  have hkeys : (keysOf (settleFrom o (searchEffectiveLimit limitParam) 0
      (selectedSites siteParam))).Nodup := by
    rw [keysOf_settleFrom]; exact hnd
  rw [lookupA_buildObj_of_nodup _ _ hkeys]
  have hfail' : settleResult failCase = [] := by
    cases hfail with
    | inl h => rw [h]; rfl
    | inr h => rw [h]; rfl
  exact lookupA_settleFrom_pointwise o _ f failCase hfail' good
    (selectedSites siteParam) 0 (fun j hj => by simpa using ho j hj) s hs

theorem apiSearch_ok (q : String) (hq : q ≠ "")
    (siteParam limitParam pageParam : Option String)
    (o : Nat → Int → Except Unit (List NormalizedRecord)) :
    apiSearch (some q) siteParam limitParam pageParam o =
      .ok (searchEffectivePage pageParam) (searchEffectiveLimit limitParam)
        (aggregateResults (selectedSites siteParam) (searchEffectiveLimit limitParam) o) := by
  rw [apiSearch, if_neg (by simp [jsFalsyOptStr, hq])]

theorem apiPopular_hit (c : PopularCache) (siteParam limitParam : Option String)
    (o : Nat → Int → Except Unit (List NormalizedRecord)) (now : Nat)
    (r : List (String × List NormalizedRecord))
    (h : popularCacheLookup c (popularKey siteParam limitParam) now = some r) :
    apiPopular c siteParam limitParam o now = ⟨r, c, false⟩ := by
  unfold apiPopular
  rw [h]

theorem apiPopular_missed (c : PopularCache) (siteParam limitParam : Option String)
    (o : Nat → Int → Except Unit (List NormalizedRecord)) (now : Nat)
    (h : popularCacheLookup c (popularKey siteParam limitParam) now = none) :
    apiPopular c siteParam limitParam o now =
      ⟨aggregateResults (popularSelected siteParam) (searchEffectiveLimit limitParam) o,
       popularStore c (popularKey siteParam limitParam)
         (aggregateResults (popularSelected siteParam) (searchEffectiveLimit limitParam) o) now,
       true⟩ := by
  unfold apiPopular
  rw [h]

theorem apiPopular_fetchedLive_miss (c : PopularCache)
    (siteParam limitParam : Option String)
    (o : Nat → Int → Except Unit (List NormalizedRecord)) (now : Nat)
    (hmiss : (apiPopular c siteParam limitParam o now).fetchedLive = true) :
    popularCacheLookup c (popularKey siteParam limitParam) now = none := by
  cases h : popularCacheLookup c (popularKey siteParam limitParam) now with
  | none => rfl
  | some r =>
    rw [apiPopular_hit c siteParam limitParam o now r h] at hmiss
    simp at hmiss

theorem popularCacheLookup_store (c : PopularCache) (key : String)
    (resp : List (String × List NormalizedRecord)) (now : Nat) (k : String) (t : Nat) :
    popularCacheLookup (popularStore c key resp now) k t =
      if t - now < POPULAR_TTL then lookupA (assocSet (c.data.getD []) key resp) k
      else none := by
  show (match lookupA (assocSet (c.data.getD []) key resp) k with
    | none => none
    | some v => if t - now < POPULAR_TTL then some v else none) = _
  cases hl : lookupA (assocSet (c.data.getD []) key resp) k with
  | none => simp
  | some v => simp

/-- C1 witness: three requested sites, `printables` fails by throwing,
the others succeed with one record each. -/
theorem c1_witness :
    let sel := selectedSites (some "thingiverse,printables,thangs")
    let rec1 : NormalizedRecord := ⟨"A", "a", "", "u1", 1, 1, "thingiverse"⟩
    let o : Nat → Int → Except Unit (List NormalizedRecord) :=
      fun j _ => if j = 1 then .error () else .ok [rec1]
    ("benchy" ≠ "" ∧ sel.Nodup) ∧
    (apiSearch (some "benchy") (some "thingiverse,printables,thangs") none none o).statusCode
      = 200 ∧
    lookupA (apiSearch (some "benchy") (some "thingiverse,printables,thangs") none none o).resultsOf
      "printables" = some [] := by
  intro sel rec1 o
  have h := c1_one_failing_adapter_leaves_siblings_intact "benchy" (by decide)
    (some "thingiverse,printables,thangs") none none (by decide)
    "printables" (.error ()) (Or.inl rfl) (fun _ => [⟨"A", "a", "", "u1", 1, 1, "thingiverse"⟩])
    o (by decide)
  refine ⟨⟨by decide, by decide⟩, h.1, ?_⟩
  have h2 := h.2.1 "printables" (by decide)
  simpa using h2

/-- C10: when `sites` lists the same recognized id more than once, one
promise is launched per occurrence (the selected list keeps every
occurrence: its count equals the request's count), yet the response
object has exactly one entry per site id (no duplicate keys), holding the
settled result of the occurrence processed last by the `forEach`
assignment loop — the last occurrence in promise order (`l1.length` is
its index).  The same holds for a live `/api/popular` fetch, whose
promise order is the sorted site list. -/
theorem c10_duplicate_site_last_invocation_wins
    (q : String) (hq : q ≠ "")
    (siteParam limitParam pageParam : Option String)
    (o : Nat → Int → Except Unit (List NormalizedRecord))
    (s : String) (l1 l2 : List String)
    (hsel : selectedSites siteParam = l1 ++ s :: l2) (hlast : s ∉ l2) :
    (selectedSites siteParam).count s = (enabledSitesOf siteParam).count s ∧
    (keysOf (apiSearch (some q) siteParam limitParam pageParam o).resultsOf).Nodup ∧
    lookupA (apiSearch (some q) siteParam limitParam pageParam o).resultsOf s =
      some (settleResult (o l1.length (searchEffectiveLimit limitParam))) ∧
    (∀ (c : PopularCache) (now : Nat),
      (apiPopular c siteParam limitParam o now).fetchedLive = true →
      (popularSelected siteParam).count s = (enabledSitesOf siteParam).count s ∧
      ∀ (m1 m2 : List String), popularSelected siteParam = m1 ++ s :: m2 → s ∉ m2 →
        lookupA (apiPopular c siteParam limitParam o now).response s =
          some (settleResult (o m1.length (searchEffectiveLimit limitParam)))) := by
  have hsmem : s ∈ selectedSites siteParam := by
    rw [hsel]; exact List.mem_append_right _ (List.mem_cons_self s l2)
  have hrec : isRecognized s = true := (List.mem_filter.mp hsmem).2
  refine ⟨List.count_filter hrec, ?_, ?_, ?_⟩
  · rw [apiSearch_ok q hq]
    exact keysOf_buildObj_nodup _
  · rw [apiSearch_ok q hq]
    exact lookupA_aggregate_last o _ _ s l1 l2 hsel hlast
  · intro c now hmiss
    have h0 := apiPopular_fetchedLive_miss c siteParam limitParam o now hmiss
    rw [apiPopular_missed c siteParam limitParam o now h0]
    refine ⟨?_, ?_⟩
    · rw [popularSelected, List.count_filter hrec, count_jsSortStrings]
    · intro m1 m2 hm hlast2
      exact lookupA_aggregate_last o _ _ s m1 m2 hm hlast2

/-- C10 witness: `sites=thangs,thangs` — two invocations, one entry,
holding the second (last) invocation's result. -/
theorem c10_witness :
    (selectedSites (some "thangs,thangs") = ["thangs"] ++ "thangs" :: [] ∧
      "thangs" ∉ ([] : List String) ∧ "q" ≠ "") ∧
    (selectedSites (some "thangs,thangs")).count "thangs" =
      (enabledSitesOf (some "thangs,thangs")).count "thangs" ∧
    lookupA (apiSearch (some "q") (some "thangs,thangs") none none
        (fun i _ => if i = 1 then .ok [⟨"B", "b", "", "u2", 2, 2, "thangs"⟩] else .ok [])).resultsOf
      "thangs" = some [⟨"B", "b", "", "u2", 2, 2, "thangs"⟩] := by
  have h := c10_duplicate_site_last_invocation_wins "q" (by decide)
    (some "thangs,thangs") none none
    (fun i _ => if i = 1 then .ok [⟨"B", "b", "", "u2", 2, 2, "thangs"⟩] else .ok [])
    "thangs" ["thangs"] [] (by decide) (by decide)
  have hpop := (h.2.2.2 ⟨none, 0⟩ 0 (by decide)).2 ["thangs"] [] (by decide) (by decide)
  exact ⟨⟨by decide, by decide, by decide⟩, h.1, by simpa [settleResult] using h.2.2.1⟩

/-- C5: a `/api/popular` request that performs a live fetch populates
the cache; repeating the same request (same `sites` and `limit`
parameters) within 5 minutes of that fetch returns the identical
response, leaves the cache untouched, and invokes no adapter
(`fetchedLive = false`) — whatever the upstream outcomes `o2` of a
hypothetical second live call would have been. -/
theorem c5_popular_cache_idempotent
    (c : PopularCache) (siteParam limitParam : Option String)
    (o1 o2 : Nat → Int → Except Unit (List NormalizedRecord)) (t1 t2 : Nat)
    (hmiss : (apiPopular c siteParam limitParam o1 t1).fetchedLive = true)
    (ht : t2 - t1 < POPULAR_TTL) :
    apiPopular (apiPopular c siteParam limitParam o1 t1).cache siteParam limitParam o2 t2 =
      ⟨(apiPopular c siteParam limitParam o1 t1).response,
       (apiPopular c siteParam limitParam o1 t1).cache, false⟩ := by
  have h0 := apiPopular_fetchedLive_miss c siteParam limitParam o1 t1 hmiss
  rw [apiPopular_missed c siteParam limitParam o1 t1 h0]
  apply apiPopular_hit
  rw [popularCacheLookup_store, if_pos ht, lookupA_assocSet, if_pos rfl]

/-- C5 witness: concrete first (live) and second (cached) calls. -/
theorem c5_witness :
    ((apiPopular ⟨none, 0⟩ (some "thingiverse") none
        (fun _ _ => .ok [⟨"A", "a", "", "u1", 1, 1, "thingiverse"⟩]) 0).fetchedLive = true ∧
      (100 : Nat) - 0 < POPULAR_TTL) ∧
    apiPopular
        (apiPopular ⟨none, 0⟩ (some "thingiverse") none
          (fun _ _ => .ok [⟨"A", "a", "", "u1", 1, 1, "thingiverse"⟩]) 0).cache
        (some "thingiverse") none
        (fun _ _ => .ok [⟨"B", "b", "", "u2", 2, 2, "thingiverse"⟩]) 100 =
      ⟨(apiPopular ⟨none, 0⟩ (some "thingiverse") none
          (fun _ _ => .ok [⟨"A", "a", "", "u1", 1, 1, "thingiverse"⟩]) 0).response,
       (apiPopular ⟨none, 0⟩ (some "thingiverse") none
          (fun _ _ => .ok [⟨"A", "a", "", "u1", 1, 1, "thingiverse"⟩]) 0).cache, false⟩ :=
  ⟨⟨by decide, by decide⟩,
    c5_popular_cache_idempotent ⟨none, 0⟩ (some "thingiverse") none
      (fun _ _ => .ok [⟨"A", "a", "", "u1", 1, 1, "thingiverse"⟩])
      (fun _ _ => .ok [⟨"B", "b", "", "u2", 2, 2, "thingiverse"⟩]) 0 100
      (by decide) (by decide)⟩

/-- C4 (amended): popular-cache staleness is governed by a single
cache-wide timestamp overwritten on every store, not by each entry's own
creation time.  After any store at time `now`, EVERY entry is served iff
the lookup is strictly within 5 minutes of `now`; in particular an entry
stored at `t1` is still returned arbitrarily long after `t1 + 5min`
provided some key — any key — was stored at `t2` within 5 minutes of the
lookup. -/
theorem c4_amended_shared_timestamp :
    (∀ (c : PopularCache) (key : String) (resp : List (String × List NormalizedRecord))
      (now : Nat) (k : String) (t : Nat),
      popularCacheLookup (popularStore c key resp now) k t =
        if t - now < POPULAR_TTL then lookupA (assocSet (c.data.getD []) key resp) k
        else none) ∧
    (∀ (c : PopularCache) (k1 : String) (r1 : List (String × List NormalizedRecord))
      (t1 : Nat) (k2 : String) (r2 : List (String × List NormalizedRecord)) (t2 t3 : Nat),
      t3 - t2 < POPULAR_TTL →
      popularCacheLookup (popularStore (popularStore c k1 r1 t1) k2 r2 t2) k1 t3 =
        some (if k1 = k2 then r2 else r1)) := by
  refine ⟨popularCacheLookup_store, ?_⟩
  intro c k1 r1 t1 k2 r2 t2 t3 ht
  rw [popularCacheLookup_store, if_pos ht]
  show lookupA (assocSet (assocSet (c.data.getD []) k1 r1) k2 r2) k1 = _
  rw [lookupA_assocSet]
  by_cases h12 : k1 = k2
  · rw [if_pos h12, if_pos h12]
  · rw [if_neg h12, if_neg h12, lookupA_assocSet, if_pos rfl]

/-- C4 counterexample: key `"thingiverse-10"` is stored at `t = 0`;
storing `"printables-10"` at `t = 240000` refreshes the shared
timestamp, so a lookup of the first entry at `t = 360000` — a full
minute AFTER its creation time plus the 5-minute TTL — still hits the
cache (`fetchedLive = false`) and returns the 6-minute-old mapping,
instead of being treated as absent as the claim requires. -/
theorem c4_counterexample :
    POPULAR_TTL ≤ 360000 - 0 ∧
    (apiPopular
      (apiPopular
        (apiPopular ⟨none, 0⟩ (some "thingiverse") none
          (fun _ _ => .ok [⟨"A", "a", "", "u1", 1, 1, "thingiverse"⟩]) 0).cache
        (some "printables") none
        (fun _ _ => .ok [⟨"B", "b", "", "u2", 2, 2, "printables"⟩]) 240000).cache
      (some "thingiverse") none
      (fun _ _ => .ok [⟨"C", "c", "", "u3", 3, 3, "thingiverse"⟩]) 360000).fetchedLive
      = false ∧
    (apiPopular
      (apiPopular
        (apiPopular ⟨none, 0⟩ (some "thingiverse") none
          (fun _ _ => .ok [⟨"A", "a", "", "u1", 1, 1, "thingiverse"⟩]) 0).cache
        (some "printables") none
        (fun _ _ => .ok [⟨"B", "b", "", "u2", 2, 2, "printables"⟩]) 240000).cache
      (some "thingiverse") none
      (fun _ _ => .ok [⟨"C", "c", "", "u3", 3, 3, "thingiverse"⟩]) 360000).response
      = [("thingiverse", [⟨"A", "a", "", "u1", 1, 1, "thingiverse"⟩])] := by
  exact ⟨by decide, by decide, by decide⟩

/-- C4 witness for the amended theorem: an entry stored at `t1 = 0` is
still served at `t3 = 360000` because another key was stored at
`t2 = 240000`. -/
theorem c4_witness :
    ((360000 : Nat) - 240000 < POPULAR_TTL) ∧
    popularCacheLookup
        (popularStore (popularStore ⟨none, 0⟩ "thingiverse-10"
            [("thingiverse", [⟨"A", "a", "", "u1", 1, 1, "thingiverse"⟩])] 0)
          "printables-10" [("printables", [])] 240000)
        "thingiverse-10" 360000 =
      some (if "thingiverse-10" = "printables-10" then [("printables", [])]
        else [("thingiverse", [⟨"A", "a", "", "u1", 1, 1, "thingiverse"⟩])]) :=
  ⟨by decide,
    c4_amended_shared_timestamp.2 ⟨none, 0⟩ "thingiverse-10"
      [("thingiverse", [⟨"A", "a", "", "u1", 1, 1, "thingiverse"⟩])] 0
      "printables-10" [("printables", [])] 240000 360000 (by decide)⟩

theorem jsNumOr_some_of_ne (n d : Int) (h : n ≠ 0) : jsNumOr (some n) d = n := by
  cases n with
  | ofNat m =>
    cases m with
    | zero => exact absurd rfl h
    | succ k => rfl
  | negSucc m => rfl

/-- C2 counterexample: `limit=-5` parses to −5, which is truthy, so the
code computes `Math.min(-5, 20) = -5`; the clamp the claim requires
would give 1.  The effective limit is not raised to 1. -/
theorem c2_counterexample :
    searchEffectiveLimit (some "-5") = -5 ∧
    specClamp (jsNumOr (jsParseInt "-5") 10) 1 20 = 1 ∧
    ¬ (1 ≤ searchEffectiveLimit (some "-5")) :=
  ⟨by decide, by decide, by decide⟩

/-- C2 (amended): at all three endpoints the effective limit is
`min(parseInt(limit) || 10, 20)` with NO lower clamp: a non-numeric or
`0` value yields the default 10, a parsed value of at least 20 yields
20, and any other non-zero parsed value — including negative ones such
as `-5` — is used as-is.  The last three conjuncts observe the limit
each route actually hands to its adapter invocations. -/
theorem c2_amended_limit_upper_clamp_only :
    (searchEffectiveLimit none = 10) ∧
    (∀ w, jsParseInt w = none → searchEffectiveLimit (some w) = 10) ∧
    (∀ w, jsParseInt w = some 0 → searchEffectiveLimit (some w) = 10) ∧
    (∀ w n, jsParseInt w = some n → n ≠ 0 → 20 ≤ n → searchEffectiveLimit (some w) = 20) ∧
    (∀ w n, jsParseInt w = some n → n ≠ 0 → n ≤ 20 → searchEffectiveLimit (some w) = n) ∧
    (searchEffectiveLimit (some "-5") = -5) ∧
    (∀ (limitParam pageParam : Option String) (invoke : Int → Int → List NormalizedRecord),
      apiSearchSite "thangs" (some "q") limitParam pageParam invoke =
        .ok "thangs" (searchEffectivePage pageParam)
          (invoke (searchEffectiveLimit limitParam) (searchEffectivePage pageParam))) ∧
    (∀ (limitParam : Option String),
      lookupA (apiSearch (some "q") (some "thangs") limitParam none
          (fun _ lim => .ok [⟨toString lim, "", "", "", 0, 0, "thangs"⟩])).resultsOf
        "thangs" =
        some [⟨toString (searchEffectiveLimit limitParam), "", "", "", 0, 0, "thangs"⟩]) ∧
    (∀ (limitParam : Option String),
      lookupA (apiPopular ⟨none, 0⟩ (some "thangs") limitParam
          (fun _ lim => .ok [⟨toString lim, "", "", "", 0, 0, "thangs"⟩]) 0).response
        "thangs" =
        some [⟨toString (searchEffectiveLimit limitParam), "", "", "", 0, 0, "thangs"⟩]) := by
  refine ⟨by decide, ?_, ?_, ?_, ?_, by decide, ?_, ?_, ?_⟩
  · intro w h
    show min (jsNumOr (jsParseInt w) 10) 20 = 10
    rw [h]
    decide
  · intro w h
    show min (jsNumOr (jsParseInt w) 10) 20 = 10
    rw [h]
    decide
  · intro w n hw hn h20
    show min (jsNumOr (jsParseInt w) 10) 20 = 20
    rw [hw, jsNumOr_some_of_ne n 10 hn]
    omega
  · intro w n hw hn h20
    show min (jsNumOr (jsParseInt w) 10) 20 = n
    rw [hw, jsNumOr_some_of_ne n 10 hn]
    omega
  · intro limitParam pageParam invoke
    rfl
  · intro limitParam
    rfl
  · intro limitParam
    rfl

/-- C2 witness: the non-numeric default and the upper cap, applied at
concrete inputs. -/
theorem c2_witness :
    (jsParseInt "abc" = none ∧ searchEffectiveLimit (some "abc") = 10) ∧
    (jsParseInt "999" = some 999 ∧ (999 : Int) ≠ 0 ∧ (20 : Int) ≤ 999 ∧
      searchEffectiveLimit (some "999") = 20) :=
  ⟨⟨by decide, c2_amended_limit_upper_clamp_only.2.1 "abc" (by decide)⟩,
   ⟨by decide, by decide, by decide,
    c2_amended_limit_upper_clamp_only.2.2.2.1 "999" 999 (by decide) (by decide) (by decide)⟩⟩

/-! ## Length bounds for the truncating adapters (C3) -/

theorem jsSliceTo_length_le (l : List α) (e : Int) (he : 0 ≤ e) :
    ((jsSliceTo l e).length : Int) ≤ e := by
  rw [jsSliceTo, if_neg (by omega)]
  rw [List.length_take]
  omega

theorem thingiverseScrape_length_le (limit : Int) :
    ∀ (cards : List ThingiverseCard) (acc : List NormalizedRecord),
      (thingiverseScrape limit cards acc).length ≤ max acc.length limit.toNat := by
  intro cards
  induction cards with
  | nil => intro acc; exact Nat.le_max_left _ _
  | cons c rest ih =>
    intro acc
    rw [thingiverseScrape]
    by_cases hstop : limit ≤ (acc.length : Int)
    · rw [if_pos hstop]; exact Nat.le_max_left _ _
    · rw [if_neg hstop]
      cases c.href with
      | none => exact le_trans (ih acc) (le_refl _)
      | some href =>
        dsimp only
        by_cases hpush : href ≠ "" ∧ strIncludes href "/thing:"
        · rw [if_pos hpush]
          refine le_trans (ih _) ?_
          simp only [List.length_append, List.length_cons, List.length_nil]
          omega
        · rw [if_neg hpush]
          exact ih acc

theorem mmfScrape_length_le (limit : Int) :
    ∀ (cards : List MmfCard) (acc : List NormalizedRecord),
      (mmfScrape limit cards acc).length ≤ max acc.length limit.toNat := by
  intro cards
  induction cards with
  | nil => intro acc; exact Nat.le_max_left _ _
  | cons c rest ih =>
    intro acc
    rw [mmfScrape]
    by_cases hstop : limit ≤ (acc.length : Int)
    · rw [if_pos hstop]; exact Nat.le_max_left _ _
    · rw [if_neg hstop]
      cases c.href with
      | none => exact ih acc
      | some href =>
        dsimp only
        by_cases hpush : href ≠ "" ∧ jsOrS (jsOrS2 (some c.cardTitle) c.elTitle) "" ≠ "" ∧
            ¬ acc.any (fun r => strIncludes r.url href)
        · rw [if_pos hpush]
          refine le_trans (ih _) ?_
          simp only [List.length_append, List.length_cons, List.length_nil]
          omega
        · rw [if_neg hpush]
          exact ih acc

theorem ymScrape_length_le (limit : Int) :
    ∀ (imgs : List YmImage) (seen : List String) (acc : List NormalizedRecord),
      (ymScrape limit imgs seen acc).length ≤ max acc.length limit.toNat := by
  intro imgs
  induction imgs with
  | nil => intro seen acc; exact Nat.le_max_left _ _
  | cons img rest ih =>
    intro seen acc
    rw [ymScrape]
    by_cases hstop : limit ≤ (acc.length : Int)
    · rw [if_pos hstop]; exact Nat.le_max_left _ _
    · rw [if_neg hstop]
      by_cases hskip : ¬ img.hasWFull = true ∨ img.src = "" ∨ img.alt = "YouMagine"
      · rw [if_pos hskip]
        exact ih seen acc
      · rw [if_neg hskip]
        cases img.href with
        | none => exact ih seen acc
        | some href =>
          dsimp only
          by_cases hpush : href ≠ "" ∧ ¬ strEndsWith href "/designs/" = true ∧
              ¬ seen.contains href = true
          · rw [if_pos hpush]
            refine le_trans (ih _ _) ?_
            simp only [List.length_append, List.length_cons, List.length_nil]
            omega
          · rw [if_neg hpush]
            exact ih seen acc

/-- C3 counterexample: `searchPrintables` with `limit = 1` returns both
records when the upstream sends two items — the returned sequence
exceeds `limit`. -/
theorem c3_counterexample :
    (searchPrintables "benchy" 1 1
      (some [⟨1, none, none, none, none, none, none⟩,
             ⟨2, none, none, none, none, none, none⟩])).length = 2 ∧
    ¬ (((searchPrintables "benchy" 1 1
      (some [⟨1, none, none, none, none, none, none⟩,
             ⟨2, none, none, none, none, none, none⟩])).length : Int) ≤ 1) :=
  ⟨by decide, by decide⟩

/-- C3 (amended): eight of the twelve adapter entry points truncate
their result to at most `limit` records; the remaining four —
`searchPrintables`, `searchCrealityCloud`, `fetchPopularPrintables` (on
a non-empty primary payload) and `fetchPopularCrealityCloud` — map every
upstream item one-to-one and so exceed `limit` whenever the upstream
returns more than requested. -/
theorem c3_amended_truncation (limit : Int) (hlim : 0 ≤ limit) :
    (∀ q page primary alt,
      ((searchThangs q limit page primary alt).length : Int) ≤ limit) ∧
    (∀ q page hasKey apiHits nextData cards,
      ((searchThingiverse q limit page hasKey apiHits nextData cards).length : Int) ≤ limit) ∧
    (∀ q page apiItems cards,
      ((searchMyMiniFactory q limit page apiItems cards).length : Int) ≤ limit) ∧
    (∀ q page imgs, ((searchYouMagine q limit page imgs).length : Int) ≤ limit) ∧
    (∀ hasKey apiHits,
      ((fetchPopularThingiverse limit hasKey apiHits).length : Int) ≤ limit) ∧
    ((fetchPopularThangs limit).length : Int) ≤ limit ∧
    ((fetchPopularMyMiniFactory limit).length : Int) ≤ limit ∧
    (∀ imgs, ((fetchPopularYouMagine limit imgs).length : Int) ≤ limit) ∧
    (∀ q page items, (searchPrintables q limit page (some items)).length = items.length) ∧
    (∀ q page items, (searchCrealityCloud q limit page (some items)).length = items.length) ∧
    (∀ searchResp items, items ≠ [] →
      (fetchPopularPrintables limit (.ok items) searchResp).length = items.length) ∧
    (∀ items, (fetchPopularCrealityCloud limit (some items)).length = items.length) := by
  have hscrapeT : ∀ cards, ((thingiverseScrape limit cards []).length : Int) ≤ limit := by
    intro cards
    have h := thingiverseScrape_length_le limit cards []
    simp only [List.length_nil, Nat.max_eq_right (Nat.zero_le _)] at h
    omega
  have hscrapeM : ∀ cards, ((mmfScrape limit cards []).length : Int) ≤ limit := by
    intro cards
    have h := mmfScrape_length_le limit cards []
    simp only [List.length_nil, Nat.max_eq_right (Nat.zero_le _)] at h
    omega
  have hscrapeY : ∀ imgs, ((ymScrape limit imgs [] []).length : Int) ≤ limit := by
    intro imgs
    have h := ymScrape_length_le limit imgs [] []
    simp only [List.length_nil, Nat.max_eq_right (Nat.zero_le _)] at h
    omega
  have hslice : ∀ (β : Type) (l : List β), ((jsSliceTo l limit).length : Int) ≤ limit :=
    fun β l => jsSliceTo_length_le l limit hlim
  refine ⟨?_, ?_, ?_, ?_, ?_, ?_, ?_, ?_, ?_, ?_, ?_, ?_⟩
  · intro q page primary alt
    cases primary with
    | some items => simpa [searchThangs, List.length_map] using hslice _ items
    | none =>
      cases alt with
      | some items => simpa [searchThangs, List.length_map] using hslice _ items
      | none => simpa [searchThangs] using hlim
  · intro q page hasKey apiHits nextData cards
    have hfb : ∀ nd, ((thingiverseScrapeFallback limit nd cards).length : Int) ≤ limit := by
      intro nd
      cases nd with
      | some things =>
        by_cases hne2 : things ≠ []
        · simpa [thingiverseScrapeFallback, hne2, List.length_map] using hslice _ things
        · simpa [thingiverseScrapeFallback, hne2] using hscrapeT cards
      | none => exact hscrapeT cards
    rw [searchThingiverse.eq_def]
    cases hkey : (if hasKey then apiHits else none) with
    | some hits =>
      dsimp only
      by_cases hne : hits ≠ []
      · simpa [hne, List.length_map] using hslice _ hits
      · simpa [hne] using hfb nextData
    | none =>
      dsimp only
      exact hfb nextData
  · intro q page apiItems cards
    cases apiItems with
    | some items =>
      by_cases hne : items ≠ []
      · simpa [searchMyMiniFactory, hne, List.length_map] using hslice _ items
      · simpa [searchMyMiniFactory, hne] using hscrapeM cards
    | none => simpa [searchMyMiniFactory] using hscrapeM cards
  · intro q page imgs
    cases imgs with
    | some l => simpa [searchYouMagine] using hscrapeY l
    | none => simpa [searchYouMagine] using hlim
  · intro hasKey apiHits
    rw [fetchPopularThingiverse.eq_def]
    cases hkey : (if hasKey then apiHits else none) with
    | some hits =>
      dsimp only
      by_cases hne : hits ≠ []
      · simpa [hne, List.length_map] using hslice _ hits
      · simpa [hne] using hslice _ fallbackPopularThingiverse
    | none =>
      dsimp only
      exact hslice _ fallbackPopularThingiverse
  · exact hslice _ fallbackPopularThangs
  · exact hslice _ fallbackPopularMmf
  · intro imgs
    cases imgs with
    | some l => simpa [fetchPopularYouMagine] using hscrapeY l
    | none => simpa [fetchPopularYouMagine] using hlim
  · intro q page items
    simp [searchPrintables, List.length_map]
  · intro q page items
    simp [searchCrealityCloud, List.length_map]
  · intro searchResp items hne
    simp [fetchPopularPrintables, hne, List.length_map]
  · intro items
    simp [fetchPopularCrealityCloud, List.length_map]

/-! ## Image proxy lemmas and claims -/

theorem apiImage_some_unfold (cache : ImageCache) (u : String)
    (up : Except Unit UpstreamImage) (now : Nat) :
    apiImage cache (some u) up now =
      if u = "" then (.badRequest "URL parameter required", cache, false)
      else if imageUrlAccepted u = false then (.badRequest "Invalid URL", cache, false)
      else
        match lookupA cache u with
        | some e =>
          if now - e.timestamp < IMAGE_CACHE_TTL then
            (.okImage e.contentType e.buffer, cache, false)
          else imageFetchPath cache u up now
        | none => imageFetchPath cache u up now := rfl

theorem lookupA_imageCacheInsert_self (cache : ImageCache) (u : String) (e : ImageEntry)
    (now : Nat) (hfresh : now - e.timestamp ≤ IMAGE_CACHE_TTL) :
    lookupA (imageCacheInsert cache u e now) u = some e := by
  rw [imageCacheInsert]
  have hbase : lookupA (assocSet cache u e) u = some e := by
    rw [lookupA_assocSet, if_pos rfl]
  by_cases hlen : (assocSet cache u e).length > 100
  · rw [if_pos hlen, evictStale]
    refine lookupA_filter_of_lookupA _ _ u e hbase ?_
    simp only [Bool.not_eq_eq_eq_not, Bool.not_true, decide_eq_false_iff_not]
    omega
  · rw [if_neg hlen]
    exact hbase

/-- C3 witness: the amended bound at `limit = 2` on concrete inputs. -/
theorem c3_witness :
    (0 : Int) ≤ 2 ∧
    ((searchThangs "q" 2 1
      (some [⟨none, none, none, none, none, none, none, none, none, none, none, none,
        none, none, none, none⟩]) none).length : Int) ≤ 2 ∧
    ((fetchPopularThangs 2).length : Int) ≤ 2 :=
  ⟨by decide,
   (c3_amended_truncation 2 (by decide)).1 "q" 1
     (some [⟨none, none, none, none, none, none, none, none, none, none, none, none,
       none, none, none, none⟩]) none,
   (c3_amended_truncation 2 (by decide)).2.2.2.2.2.1⟩

/-- C7: when a first `/api/image` request for decoded URL `u` performs
the upstream fetch (`hfetch`) and that fetch succeeds, a second request
for the same decoded URL within 30 minutes performs no fetch at all: it
is served from the cache entry keyed by `u`, with exactly the first
response's bytes and Content-Type, and leaves the cache unchanged. -/
theorem c7_image_cache_single_fetch
    (cache : ImageCache) (u : String) (resp : UpstreamImage) (hok : resp.ok = true)
    (t1 t2 : Nat) (up2 : Except Unit UpstreamImage)
    (hfetch : (apiImage cache (some u) (.ok resp) t1).2.2 = true)
    (ht : t2 - t1 < IMAGE_CACHE_TTL) :
    (apiImage cache (some u) (.ok resp) t1).1 =
      .okImage (jsOrS resp.contentType "image/jpeg") resp.body ∧
    apiImage (apiImage cache (some u) (.ok resp) t1).2.1 (some u) up2 t2 =
      ((apiImage cache (some u) (.ok resp) t1).1,
       (apiImage cache (some u) (.ok resp) t1).2.1, false) := by
  have hfp : imageFetchPath cache u (.ok resp) t1 =
      (.okImage (jsOrS resp.contentType "image/jpeg") resp.body,
       imageCacheInsert cache u
         ⟨resp.body, jsOrS resp.contentType "image/jpeg", t1⟩ t1, true) := by
    simp [imageFetchPath, hok]
  rw [apiImage_some_unfold] at hfetch
  by_cases hu : u = ""
  · rw [if_pos hu] at hfetch
    exact absurd hfetch (by simp)
  rw [if_neg hu] at hfetch
  by_cases hacc : imageUrlAccepted u = false
  · rw [if_pos hacc] at hfetch
    exact absurd hfetch (by simp)
  rw [if_neg hacc] at hfetch
  have hfirst : apiImage cache (some u) (.ok resp) t1 =
      imageFetchPath cache u (.ok resp) t1 := by
    rw [apiImage_some_unfold, if_neg hu, if_neg hacc]
    cases hl : lookupA cache u with
    | none => rfl
    | some e =>
      dsimp only
      rw [hl] at hfetch
      dsimp only at hfetch
      by_cases hf : t1 - e.timestamp < IMAGE_CACHE_TTL
      · rw [if_pos hf] at hfetch
        exact absurd hfetch (by simp)
      · rw [if_neg hf]
  rw [hfirst, hfp]
  refine ⟨rfl, ?_⟩
  have hlook2 : lookupA (imageCacheInsert cache u
      ⟨resp.body, jsOrS resp.contentType "image/jpeg", t1⟩ t1) u =
      some ⟨resp.body, jsOrS resp.contentType "image/jpeg", t1⟩ :=
    lookupA_imageCacheInsert_self _ _ _ _ (by dsimp only; omega)
  rw [apiImage_some_unfold, if_neg hu, if_neg hacc, hlook2]
  dsimp only
  rw [if_pos (by simpa using ht)]

/-- C7 witness: two concrete requests for `https://a/b`; the first
fetches (flag `true`), the second is the cached tuple with flag
`false`. -/
theorem c7_witness :
    ((⟨true, 200, some "image/png", [9]⟩ : UpstreamImage).ok = true ∧
      (apiImage [] (some "https://a/b") (.ok ⟨true, 200, some "image/png", [9]⟩) 0).2.2 = true ∧
      (5 : Nat) - 0 < IMAGE_CACHE_TTL) ∧
    (apiImage [] (some "https://a/b") (.ok ⟨true, 200, some "image/png", [9]⟩) 0).1 =
      .okImage (jsOrS (some "image/png") "image/jpeg") [9] ∧
    apiImage (apiImage [] (some "https://a/b")
        (.ok ⟨true, 200, some "image/png", [9]⟩) 0).2.1 (some "https://a/b")
        (Except.error ()) 5 =
      ((apiImage [] (some "https://a/b") (.ok ⟨true, 200, some "image/png", [9]⟩) 0).1,
       (apiImage [] (some "https://a/b") (.ok ⟨true, 200, some "image/png", [9]⟩) 0).2.1,
       false) :=
  ⟨⟨by decide, by decide, by decide⟩,
   c7_image_cache_single_fetch [] "https://a/b" ⟨true, 200, some "image/png", [9]⟩
     (by decide) 0 5 (Except.error ()) (by decide) (by decide)⟩

/-- C8 counterexample: the decoded input `"http://"` is not a
well-formed absolute HTTP(S) URL (its host is empty), yet the route does
not reject it with a 400: it passes the prefix-only check, proceeds to
the fetch step, and the failed fetch surfaces as a 500 server error. -/
theorem c8_counterexample :
    specWellFormedHttpUrl "http://" = false ∧
    (apiImage [] (some "http://") (Except.error ()) 0).1 =
      .serverError "Failed to fetch image" ∧
    (apiImage [] (some "http://") (Except.error ()) 0).1.is400 = false ∧
    (apiImage [] (some "http://") (Except.error ()) 0).2.2 = true :=
  ⟨by decide, by decide, by decide, by decide⟩

/-- C8 (amended): the route validates only that the decoded url starts
with `http://` or `https://`.  Every input failing that prefix check is
rejected with a 400 client error, without touching the cache and without
reaching the fetch step; an input passing the check proceeds even when
it is not a well-formed URL.  When the upstream fetch resolves with a
non-success response, the proxy's response carries the upstream status
code. -/
theorem c8_amended_prefix_check_only :
    (∀ (cache : ImageCache) (u : String) (up : Except Unit UpstreamImage) (now : Nat),
      imageUrlAccepted u = false →
      (apiImage cache (some u) up now).1.is400 = true ∧
      (apiImage cache (some u) up now).2.1 = cache ∧
      (apiImage cache (some u) up now).2.2 = false) ∧
    (∀ (cache : ImageCache) (u : String) (resp : UpstreamImage) (now : Nat),
      imageUrlAccepted u = true → lookupA cache u = none → resp.ok = false →
      (apiImage cache (some u) (.ok resp) now).1 =
        .upstreamError resp.status "Failed to fetch image") := by
  constructor
  · intro cache u up now hacc
    rw [apiImage_some_unfold]
    by_cases hu : u = ""
    · rw [if_pos hu]
      exact ⟨rfl, rfl, rfl⟩
    · rw [if_neg hu, if_pos hacc]
      exact ⟨rfl, rfl, rfl⟩
  · intro cache u resp now hacc hlook hnok
    have hu : ¬ u = "" := by
      intro h
      rw [h] at hacc
      exact absurd hacc (by decide)
    rw [apiImage_some_unfold, if_neg hu, if_neg (by simp [hacc]), hlook]
    dsimp only
    simp [imageFetchPath, hnok]

/-- C8 witness: `ftp://x` is rejected with 400 and no fetch; a 404 from
the upstream for a cache-missing accepted URL is propagated. -/
theorem c8_witness :
    (imageUrlAccepted "ftp://x" = false ∧
      (apiImage [] (some "ftp://x") (Except.error ()) 0).1.is400 = true ∧
      (apiImage [] (some "ftp://x") (Except.error ()) 0).2.2 = false) ∧
    (imageUrlAccepted "https://a" = true ∧
      lookupA ([] : ImageCache) "https://a" = none ∧
      (⟨false, 404, none, []⟩ : UpstreamImage).ok = false ∧
      (apiImage [] (some "https://a") (.ok ⟨false, 404, none, []⟩) 0).1 =
        .upstreamError 404 "Failed to fetch image") := by
  refine ⟨⟨by decide, ?_, ?_⟩, by decide, by decide, by decide, ?_⟩
  · exact (c8_amended_prefix_check_only.1 [] "ftp://x" (Except.error ()) 0 (by decide)).1
  · exact (c8_amended_prefix_check_only.1 [] "ftp://x" (Except.error ()) 0 (by decide)).2.2
  · exact c8_amended_prefix_check_only.2 [] "https://a" ⟨false, 404, none, []⟩ 0
      (by decide) (by decide) (by decide)

/-- C9: after every insertion into the image cache, when the total entry
count exceeds 100, an entry survives the sweep iff its age is at most
the 30-minute TTL (exactly the entries strictly older than the TTL are
evicted — the just-inserted fresh entry among the kept); when the count
is at most 100, the cache is exactly the post-`set` state with no
eviction. -/
theorem c9_image_cache_eviction :
    (∀ (cache : ImageCache) (k : String) (e : ImageEntry) (now : Nat)
      (p : String × ImageEntry),
      p ∈ imageCacheInsert cache k e now ↔
        (p ∈ assocSet cache k e ∧
          ((assocSet cache k e).length ≤ 100 ∨ now - p.2.timestamp ≤ IMAGE_CACHE_TTL))) ∧
    (∀ (cache : ImageCache) (k : String) (e : ImageEntry) (now : Nat),
      (assocSet cache k e).length ≤ 100 →
      imageCacheInsert cache k e now = assocSet cache k e) := by
  constructor
  · intro cache k e now p
    rw [imageCacheInsert]
    by_cases hlen : (assocSet cache k e).length > 100
    · rw [if_pos hlen, evictStale, List.mem_filter]
      simp only [Bool.not_eq_eq_eq_not, Bool.not_true, decide_eq_false_iff_not]
      constructor
      · rintro ⟨hm, hk⟩
        exact ⟨hm, Or.inr (by omega)⟩
      · rintro ⟨hm, h⟩
        refine ⟨hm, ?_⟩
        cases h with
        | inl h => omega
        | inr h => omega
    · rw [if_neg hlen]
      constructor
      · intro hm
        exact ⟨hm, Or.inl (by omega)⟩
      · rintro ⟨hm, _⟩
        exact hm
  · intro cache k e now h
    rw [imageCacheInsert, if_neg (by omega)]

/-- C9 witness: a one-entry cache is far below the 100-entry threshold,
so insertion performs no eviction. -/
theorem c9_witness :
    ((assocSet ([] : ImageCache) "https://a" ⟨[1], "image/png", 0⟩).length ≤ 100) ∧
    imageCacheInsert [] "https://a" ⟨[1], "image/png", 0⟩ 7 =
      assocSet [] "https://a" ⟨[1], "image/png", 0⟩ :=
  ⟨by decide, c9_image_cache_eviction.2 [] "https://a" ⟨[1], "image/png", 0⟩ 7 (by decide)⟩

end Srv
